import Mathlib

/-!
Shallow embedding of the GencFit backend's appointment booking core
(routes/appointments.js, models/Appointment.js, models/User.js,
middleware/validation.js) and proofs of the specification claims about it.

Times are modelled as integer millisecond timestamps (JS `Date.getTime()`).
An unparseable date input (`new Date(s)` yielding `NaN`) is modelled as
`Option.none` where it matters.  Database state is a list of appointment
records; Mongo's `findOne` is `List.find?`, `updateMany` is `List.map` with
a filter, and a document `save` writes the record back in place (the
schema's pre-save hook stamps `updated_at`).
-/

namespace GencFit

/-- Appointment status enum from the Appointment schema:
`pending | confirmed | cancelled | completed`. -/
inductive Status where
  | pending
  | confirmed
  | cancelled
  | completed
deriving DecidableEq, Repr

/-- User role enum from the User schema: `user | admin`. -/
inductive Role where
  | user
  | admin
deriving DecidableEq, Repr

/-- An appointment document (models/Appointment.js). -/
structure Appointment where
  id : String
  user_id : String
  user_name : String
  venue_id : String
  venue_name : String
  appointment_date : Int
  duration_hours : Int
  purpose : String
  notes : String
  status : Status
  created_at : Int
  updated_at : Int
deriving DecidableEq, Repr

/-- A venue document, restricted to the fields the appointment routes read. -/
structure Venue where
  id : String
  name : String
  is_active : Bool
deriving DecidableEq, Repr

/-- The authenticated caller attached by the `protect` middleware
(`req.user`): custom id, display name and role. -/
structure Caller where
  id : String
  full_name : String
  role : Role
deriving DecidableEq, Repr

/-- `status in {pending, confirmed}` — an active appointment as used in the
conflict query and the cron sweep. -/
def isActive (s : Status) : Bool :=
  s = Status.pending || s = Status.confirmed

/-- `Venue.findByCustomId` / `Appointment.findByCustomId`:
`findOne({id: customId})`. -/
def findByCustomId (db : List Appointment) (customId : String) :
    Option Appointment :=
  db.find? (fun a => a.id = customId)

def venueFindByCustomId (venues : List Venue) (customId : String) :
    Option Venue :=
  venues.find? (fun v => v.id = customId)

/-- The Mongo filter of the conflict query in `POST /appointments`:
same venue, stored start within `[dt - windowMs, dt + windowMs]`
(both bounds inclusive: `$gte`/`$lte`), status pending or confirmed.
The existing appointment's own `duration_hours` is not read. -/
def conflictFilter (venue_id : String) (dt windowMs : Int)
    (a : Appointment) : Bool :=
  a.venue_id = venue_id &&
  (dt - windowMs ≤ a.appointment_date && a.appointment_date ≤ dt + windowMs) &&
  isActive a.status

/-- Request body of `POST /appointments` after JSON parsing.
`appointment_date` is `none` when `new Date(appointment_date)` is `NaN`
(unparseable input), `some ms` otherwise.  `duration_hours` defaults to 1
and `notes` to `""` in the route's destructuring. -/
structure CreateRequest where
  venue_id : String
  appointment_date : Option Int
  duration_hours : Int
  purpose : String
  notes : String
deriving DecidableEq, Repr

/-- Outcome of `POST /appointments`. -/
inductive CreateResult where
  /-- 404 "Venue not found or inactive" -/
  | venueNotFound
  /-- 400 "Invalid appointment date" -/
  | invalidDate
  /-- 400 "Appointment date must be in the future" -/
  | pastDate
  /-- 400 "Time slot is not available" -/
  | conflict
  /-- 201 with the created record -/
  | createdOk (a : Appointment)
deriving DecidableEq, Repr

/-- Handler of `POST /appointments` (routes/appointments.js).  Steps, in
source order: venue lookup and active check (404); date parse (400) and
strict-future check (400); symmetric-window conflict query (400); insert.
`now` is the current time, `newId` the uuid generated for the record. -/
def createAppointment (venues : List Venue) (db : List Appointment)
    (caller : Caller) (now : Int) (req : CreateRequest) (newId : String) :
    CreateResult × List Appointment :=
  match venueFindByCustomId venues req.venue_id with
  | none => (CreateResult.venueNotFound, db)
  | some venue =>
    if venue.is_active = false then (CreateResult.venueNotFound, db)
    else
      match req.appointment_date with
      | none => (CreateResult.invalidDate, db)
      | some dt =>
        if dt ≤ now then (CreateResult.pastDate, db)
        else
          let windowMs := req.duration_hours * 60 * 60 * 1000
          match db.find? (conflictFilter req.venue_id dt windowMs) with
          | some _ => (CreateResult.conflict, db)
          | none =>
            let a : Appointment :=
              { id := newId
                user_id := caller.id
                user_name := caller.full_name
                venue_id := req.venue_id
                venue_name := venue.name
                appointment_date := dt
                duration_hours := req.duration_hours
                purpose := req.purpose.trim
                notes := req.notes.trim
                status := Status.pending
                created_at := now
                updated_at := now }
            (CreateResult.createdOk a, db ++ [a])

/-- Write a saved document back into the collection in place
(`appointment.save()`).  The schema's pre-save hook stamps `updated_at`
with the save time. -/
def saveAppointment (db : List Appointment) (a : Appointment) (now : Int) :
    List Appointment :=
  db.map (fun x => if x.id = a.id then { a with updated_at := now } else x)

/-- Outcome of `PUT /appointments/:id/status`. -/
inductive StatusResult where
  /-- 404 "Appointment not found" -/
  | notFound
  /-- 403 "Users can only cancel appointments" -/
  | forbiddenOnlyCancel
  /-- 403 "Not authorized to update this appointment" -/
  | forbiddenNotOwner
  /-- 400 "Cannot change status of completed appointments" -/
  | completedLocked
  /-- 200 with the updated record -/
  | statusOk (a : Appointment)
deriving DecidableEq, Repr

/-- The code of `PUT /appointments/:id/status` after the permission branch:
the completed-state guard (`appointment.status === "completed" && status
!== "completed"` → 400), then assignment and save. -/
def applyStatus (db : List Appointment) (appointment : Appointment)
    (status : Status) (now : Int) : StatusResult × List Appointment :=
  if appointment.status = Status.completed ∧ status ≠ Status.completed then
    (StatusResult.completedLocked, db)
  else
    let updated := { appointment with status := status }
    (StatusResult.statusOk { updated with updated_at := now },
     saveAppointment db updated now)

/-- Handler of `PUT /appointments/:id/status` (routes/appointments.js).
Permission branch: an admin may update any status; an owner may only
request `cancelled`; anyone else is rejected.  Transition guard: only
`appointment.status === "completed" && status !== "completed"` is blocked.
`validateAppointmentStatus` has already constrained `status` to the enum. -/
def updateAppointmentStatus (db : List Appointment) (caller : Caller)
    (apptId : String) (status : Status) (now : Int) :
    StatusResult × List Appointment :=
  match findByCustomId db apptId with
  | none => (StatusResult.notFound, db)
  | some appointment =>
    if caller.role = Role.admin then
      applyStatus db appointment status now
    else if appointment.user_id = caller.id then
      if status ≠ Status.cancelled then (StatusResult.forbiddenOnlyCancel, db)
      else applyStatus db appointment status now
    else (StatusResult.forbiddenNotOwner, db)

/-- Request body of `PUT /appointments/:id` after JSON parsing.  Each field
is `none` when absent from the body.  For `appointment_date` only absent
and parseable nonempty date strings are modelled, so `some ms` is a truthy
input that parses to `ms`; `duration_hours` and `purpose` carry their JS
values, whose truthiness (`≠ 0`, `≠ ""`) the handler tests; `notes` is
assigned whenever present (`!== undefined`). -/
structure UpdateRequest where
  appointment_date : Option Int
  duration_hours : Option Int
  purpose : Option String
  notes : Option String
deriving DecidableEq, Repr

/-- Outcome of `PUT /appointments/:id`. -/
inductive UpdateResult where
  /-- 404 "Appointment not found" -/
  | notFound
  /-- 403 "Not authorized to update this appointment" -/
  | forbidden
  /-- 400 "Cannot update completed or cancelled appointments" -/
  | terminalLocked
  /-- 400 "Appointment date must be in the future" -/
  | pastDate
  /-- 200 with the updated record -/
  | updateOk (a : Appointment)
deriving DecidableEq, Repr

/-- The field assignments of `PUT /appointments/:id`, after the date's
future check has passed: `if (appointment_date) ... ; if (duration_hours)
... ; if (purpose) ... ; if (notes !== undefined) ...`. -/
def applyFieldUpdates (appointment : Appointment) (req : UpdateRequest) :
    Appointment :=
  let a1 := match req.appointment_date with
            | some newDate => { appointment with appointment_date := newDate }
            | none => appointment
  let a2 := match req.duration_hours with
            | some d => if d ≠ 0 then { a1 with duration_hours := d } else a1
            | none => a1
  let a3 := match req.purpose with
            | some p => if p ≠ "" then { a2 with purpose := p } else a2
            | none => a2
  match req.notes with
  | some n => { a3 with notes := n }
  | none => a3

/-- The tail of `PUT /appointments/:id` once all guards have passed: the
conditional field assignments followed by `appointment.save()`. -/
def finishUpdate (db : List Appointment) (appointment : Appointment)
    (req : UpdateRequest) (now : Int) : UpdateResult × List Appointment :=
  let updated := applyFieldUpdates appointment req
  (UpdateResult.updateOk { updated with updated_at := now },
   saveAppointment db updated now)

/-- Handler of `PUT /appointments/:id` (routes/appointments.js).  Steps, in
source order: lookup (404); owner-or-admin check (403); terminal-state
guard on `completed`/`cancelled` (400); future re-validation of a supplied
date (400); conditional field assignments; save.  No conflict query runs. -/
def updateAppointment (db : List Appointment) (caller : Caller)
    (apptId : String) (req : UpdateRequest) (now : Int) :
    UpdateResult × List Appointment :=
  match findByCustomId db apptId with
  | none => (UpdateResult.notFound, db)
  | some appointment =>
    if appointment.user_id ≠ caller.id ∧ caller.role ≠ Role.admin then
      (UpdateResult.forbidden, db)
    else if appointment.status = Status.completed ∨
            appointment.status = Status.cancelled then
      (UpdateResult.terminalLocked, db)
    else
      match req.appointment_date with
      | some newDate =>
        if newDate ≤ now then (UpdateResult.pastDate, db)
        else finishUpdate db appointment req now
      | none => finishUpdate db appointment req now

/-- One record under the cron sweep's `updateMany` filter and `$set`:
`{appointment_date: {$lt: now}, status: {$in: ["pending","confirmed"]}}`
becomes `{status: "completed", updated_at: now}`. -/
def sweepOne (now : Int) (a : Appointment) : Appointment :=
  if a.appointment_date < now ∧ isActive a.status then
    { a with status := Status.completed, updated_at := now }
  else a

/-- One pass of `registerAppointmentCron`'s scheduled job at time `now`:
`Appointment.updateMany` over the whole collection. -/
def sweep (now : Int) (db : List Appointment) : List Appointment :=
  db.map (sweepOne now)

/-- `result.modifiedCount` of a sweep pass: the number of documents the
filter matched (each such document is modified, since its status changes
from pending/confirmed to completed). -/
def sweepModifiedCount (now : Int) (db : List Appointment) : Nat :=
  (db.filter (fun a => a.appointment_date < now && isActive a.status)).length

/-- A user document (models/User.js), with its serialization-relevant
fields; values are modelled as strings. -/
structure User where
  id : String
  email : String
  password : String
  full_name : String
  role : Role
  is_active : Bool
deriving DecidableEq, Repr

/-- `this.toObject()` on a user document: every stored field as a
key/value pair, the Mongo internals `_id` and `__v` included. -/
def userToObject (u : User) : List (String × String) :=
  [("_id", u.id), ("__v", "0"), ("id", u.id), ("email", u.email),
   ("password", u.password), ("full_name", u.full_name),
   ("role", if u.role = Role.admin then "admin" else "user"),
   ("is_active", if u.is_active then "true" else "false")]

/-- `userSchema.methods.toJSON`: take `toObject()` and delete `_id`, `__v`
and `password`. -/
def userToJSON (u : User) : List (String × String) :=
  (userToObject u).filter
    (fun kv => kv.1 ≠ "_id" && kv.1 ≠ "__v" && kv.1 ≠ "password")

/-! ### Fixtures for concrete evaluations -/

/-- A concrete appointment with the given id, venue, start, duration and
status; the remaining fields are fixed sample data. -/
def mkAppt (id venue_id : String) (date dur : Int) (st : Status) :
    Appointment :=
  { id := id, user_id := "u1", user_name := "User One",
    venue_id := venue_id, venue_name := "Arena",
    appointment_date := date, duration_hours := dur,
    purpose := "training", notes := "", status := st,
    created_at := 0, updated_at := 0 }

/-- A concrete active venue. -/
def mkVenue (id : String) : Venue :=
  { id := id, name := "Arena", is_active := true }

/-- A concrete non-admin caller owning the fixture appointments. -/
def ownerCaller : Caller :=
  { id := "u1", full_name := "User One", role := Role.user }

/-- A concrete admin caller. -/
def adminCaller : Caller :=
  { id := "adm", full_name := "Admin", role := Role.admin }

/-! ### Supporting lemmas -/

/-- The conflict query's Mongo filter, restated propositionally. -/
theorem conflictFilter_iff (venue_id : String) (dt w : Int)
    (a : Appointment) :
    conflictFilter venue_id dt w a = true ↔
      a.venue_id = venue_id ∧
      (a.status = Status.pending ∨ a.status = Status.confirmed) ∧
      dt - w ≤ a.appointment_date ∧ a.appointment_date ≤ dt + w := by
  simp only [conflictFilter, isActive, Bool.and_eq_true, Bool.or_eq_true,
    decide_eq_true_eq]
  tauto

/-! ### Claims -/

/-- C1: for an appointment-creation request whose venue lookup succeeds on
an active venue and whose date parses to a strictly future instant, the
handler answers the conflict error (400 "Time slot is not available") if
and only if some stored appointment at that venue with status pending or
confirmed has its start within the closed interval
`[dt - durationHours * 3600000, dt + durationHours * 3600000]`; the stored
appointment's own duration is never consulted. -/
theorem C1_create_conflict_iff (venues : List Venue) (db : List Appointment)
    (caller : Caller) (now : Int) (req : CreateRequest) (newId : String)
    (venue : Venue) (dt : Int)
    (hv : venueFindByCustomId venues req.venue_id = some venue)
    (ha : venue.is_active = true)
    (hdt : req.appointment_date = some dt)
    (hfut : now < dt) :
    (createAppointment venues db caller now req newId).1 =
        CreateResult.conflict ↔
      ∃ a ∈ db, a.venue_id = req.venue_id ∧
        (a.status = Status.pending ∨ a.status = Status.confirmed) ∧
        dt - req.duration_hours * 3600000 ≤ a.appointment_date ∧
        a.appointment_date ≤ dt + req.duration_hours * 3600000 := by
  have hnle : ¬ dt ≤ now := not_le.mpr hfut
  have hw : req.duration_hours * 60 * 60 * 1000 =
      req.duration_hours * 3600000 := by ring
  unfold createAppointment
  rw [hv, hdt]
  simp only [ha, Bool.true_eq_false, if_false, if_neg hnle, hw]
  cases hfind : List.find?
      (conflictFilter req.venue_id dt (req.duration_hours * 3600000)) db with
  | none =>
    simp only [hfind]
    constructor
    · intro h
      exact absurd h (by simp)
    · rintro ⟨a, hmem, hprops⟩
      have := List.find?_eq_none.mp hfind a hmem
      exact absurd ((conflictFilter_iff _ _ _ _).mpr hprops) this
  | some c =>
    simp only [hfind]
    constructor
    · intro _
      exact ⟨c, List.mem_of_find?_eq_some hfind,
        (conflictFilter_iff _ _ _ _).mp (List.find?_some hfind)⟩
    · intro _
      trivial

/-- Witness for C1 at concrete input: one pending booking at venue `v1`
starting at 500000 conflicts with a new 1-hour request at 1000000. -/
theorem C1_witness :
    (createAppointment [mkVenue "v1"]
        [mkAppt "a1" "v1" 500000 1 Status.pending]
        ownerCaller 0
        { venue_id := "v1", appointment_date := some 1000000,
          duration_hours := 1, purpose := "match", notes := "" }
        "new").1 = CreateResult.conflict ↔
      ∃ a ∈ [mkAppt "a1" "v1" 500000 1 Status.pending],
        a.venue_id = "v1" ∧
        (a.status = Status.pending ∨ a.status = Status.confirmed) ∧
        (1000000 : Int) - 1 * 3600000 ≤ a.appointment_date ∧
        a.appointment_date ≤ 1000000 + 1 * 3600000 :=
  C1_create_conflict_iff [mkVenue "v1"]
    [mkAppt "a1" "v1" 500000 1 Status.pending] ownerCaller 0
    { venue_id := "v1", appointment_date := some 1000000,
      duration_hours := 1, purpose := "match", notes := "" }
    "new" (mkVenue "v1") 1000000 rfl rfl rfl (by decide)

/-- C2 counterexample: `cancelled` is not locked by the status route's
transition guard — an admin's request moves a cancelled appointment to
`confirmed` and the handler answers 200, contradicting the claim that every
transition out of a terminal status is rejected for every caller. -/
theorem C2_counterexample :
    (mkAppt "a1" "v1" 0 1 Status.cancelled).status = Status.cancelled ∧
    (updateAppointmentStatus [mkAppt "a1" "v1" 0 1 Status.cancelled]
        adminCaller "a1" Status.confirmed 100).1 =
      StatusResult.statusOk
        { mkAppt "a1" "v1" 0 1 Status.cancelled with
            status := Status.confirmed, updated_at := 100 } := by
  exact ⟨rfl, by decide⟩

/-- C2 amended: a status-transition request on a `completed` appointment to
any different status is rejected for every caller and leaves the collection
unchanged; a `cancelled` appointment, by contrast, is not locked — an admin
request moves it to any status. -/
theorem C2_completed_locked (db : List Appointment) (caller : Caller)
    (apptId : String) (status : Status) (now : Int) (appt : Appointment)
    (h1 : findByCustomId db apptId = some appt) :
    (appt.status = Status.completed → status ≠ Status.completed →
      (∀ a, (updateAppointmentStatus db caller apptId status now).1 ≠
          StatusResult.statusOk a) ∧
      (updateAppointmentStatus db caller apptId status now).2 = db) ∧
    (caller.role = Role.admin → appt.status = Status.cancelled →
      (updateAppointmentStatus db caller apptId status now).1 =
        StatusResult.statusOk
          { appt with status := status, updated_at := now }) := by
  unfold updateAppointmentStatus applyStatus
  rw [h1]
  constructor
  · intro hc hs
    by_cases hadm : caller.role = Role.admin
    · simp [hadm, hc, hs]
    · by_cases hown : appt.user_id = caller.id
      · by_cases hcanc : status = Status.cancelled
        · simp [hadm, hown, hcanc, hc, hs]
        · simp [hadm, hown, hcanc]
      · simp [hadm, hown]
  · intro hadm hcanc
    simp [hadm, hcanc]

/-- Witness for C2's amended theorem: a completed appointment cannot be
cancelled, by anyone; and the admin clause instantiated (vacuously here,
since the fixture caller is the owner). -/
theorem C2_witness :
    (((mkAppt "a2" "v1" 0 1 Status.completed).status = Status.completed →
        Status.cancelled ≠ Status.completed →
      (∀ a, (updateAppointmentStatus [mkAppt "a2" "v1" 0 1 Status.completed]
          ownerCaller "a2" Status.cancelled 5).1 ≠
          StatusResult.statusOk a) ∧
      (updateAppointmentStatus [mkAppt "a2" "v1" 0 1 Status.completed]
          ownerCaller "a2" Status.cancelled 5).2 =
        [mkAppt "a2" "v1" 0 1 Status.completed]) ∧
    (ownerCaller.role = Role.admin →
      (mkAppt "a2" "v1" 0 1 Status.completed).status = Status.cancelled →
      (updateAppointmentStatus [mkAppt "a2" "v1" 0 1 Status.completed]
          ownerCaller "a2" Status.cancelled 5).1 =
        StatusResult.statusOk
          { mkAppt "a2" "v1" 0 1 Status.completed with
              status := Status.cancelled, updated_at := 5 })) :=
  C2_completed_locked [mkAppt "a2" "v1" 0 1 Status.completed]
    ownerCaller "a2" Status.cancelled 5
    (mkAppt "a2" "v1" 0 1 Status.completed) rfl

/-- C3: a non-admin owner's status request is rejected as forbidden
(403 "Users can only cancel appointments") whenever the requested status is
not `cancelled`, leaving the collection unchanged; a request for
`cancelled` passes the permission branch — the handler never answers
either 403 for it. -/
theorem C3_owner_only_cancel (db : List Appointment) (caller : Caller)
    (apptId : String) (status : Status) (now : Int) (appt : Appointment)
    (h1 : findByCustomId db apptId = some appt)
    (h2 : caller.role ≠ Role.admin)
    (h3 : appt.user_id = caller.id) :
    (status ≠ Status.cancelled →
      (updateAppointmentStatus db caller apptId status now).1 =
        StatusResult.forbiddenOnlyCancel ∧
      (updateAppointmentStatus db caller apptId status now).2 = db) ∧
    (status = Status.cancelled →
      (updateAppointmentStatus db caller apptId status now).1 ≠
        StatusResult.forbiddenOnlyCancel ∧
      (updateAppointmentStatus db caller apptId status now).1 ≠
        StatusResult.forbiddenNotOwner) := by
  unfold updateAppointmentStatus applyStatus
  rw [h1]
  constructor
  · intro hs
    simp [h2, h3, hs]
  · intro hs
    by_cases hg : appt.status = Status.completed
    · simp [h2, h3, hs, hg]
    · simp [h2, h3, hs, hg]

/-- Witness for C3 at concrete input: the owner requesting `confirmed` on
their own pending appointment is answered 403, and the collection is
unchanged; requesting `cancelled` is never answered 403. -/
theorem C3_witness :
    ((Status.confirmed ≠ Status.cancelled →
      (updateAppointmentStatus [mkAppt "a3" "v1" 0 1 Status.pending]
          ownerCaller "a3" Status.confirmed 7).1 =
        StatusResult.forbiddenOnlyCancel ∧
      (updateAppointmentStatus [mkAppt "a3" "v1" 0 1 Status.pending]
          ownerCaller "a3" Status.confirmed 7).2 =
        [mkAppt "a3" "v1" 0 1 Status.pending]) ∧
    (Status.confirmed = Status.cancelled →
      (updateAppointmentStatus [mkAppt "a3" "v1" 0 1 Status.pending]
          ownerCaller "a3" Status.confirmed 7).1 ≠
        StatusResult.forbiddenOnlyCancel ∧
      (updateAppointmentStatus [mkAppt "a3" "v1" 0 1 Status.pending]
          ownerCaller "a3" Status.confirmed 7).1 ≠
        StatusResult.forbiddenNotOwner)) :=
  C3_owner_only_cancel [mkAppt "a3" "v1" 0 1 Status.pending] ownerCaller
    "a3" Status.confirmed 7 (mkAppt "a3" "v1" 0 1 Status.pending)
    rfl (by decide) rfl

/-- C4: when the venue lookup succeeds on an active venue but the supplied
date is unparseable or not strictly in the future, creation is rejected
with a 400 validation answer, no record is inserted, and the outcome is the
same whatever the existing appointments are — the conflict query is never
reached. -/
theorem C4_bad_date_rejected (venues : List Venue) (db : List Appointment)
    (caller : Caller) (now : Int) (req : CreateRequest) (newId : String)
    (venue : Venue)
    (hv : venueFindByCustomId venues req.venue_id = some venue)
    (ha : venue.is_active = true)
    (hbad : req.appointment_date = none ∨
      ∃ dt, req.appointment_date = some dt ∧ dt ≤ now) :
    ((createAppointment venues db caller now req newId).1 =
        CreateResult.invalidDate ∨
     (createAppointment venues db caller now req newId).1 =
        CreateResult.pastDate) ∧
    (createAppointment venues db caller now req newId).2 = db ∧
    ∀ db2 : List Appointment,
      (createAppointment venues db2 caller now req newId).1 =
      (createAppointment venues db caller now req newId).1 := by
  rcases hbad with hnone | ⟨dt, hdt, hle⟩
  · simp [createAppointment, hv, hnone, ha]
  · simp [createAppointment, hv, hdt, ha, hle]

/-- Witness for C4 at concrete input: a request dated 5 at current time 10
is rejected as past, inserts nothing, and ignores the stored appointments. -/
theorem C4_witness :
    (((createAppointment [mkVenue "v1"] [] ownerCaller 10
        { venue_id := "v1", appointment_date := some 5,
          duration_hours := 1, purpose := "match", notes := "" }
        "new").1 = CreateResult.invalidDate ∨
     (createAppointment [mkVenue "v1"] [] ownerCaller 10
        { venue_id := "v1", appointment_date := some 5,
          duration_hours := 1, purpose := "match", notes := "" }
        "new").1 = CreateResult.pastDate) ∧
    (createAppointment [mkVenue "v1"] [] ownerCaller 10
        { venue_id := "v1", appointment_date := some 5,
          duration_hours := 1, purpose := "match", notes := "" }
        "new").2 = [] ∧
    ∀ db2 : List Appointment,
      (createAppointment [mkVenue "v1"] db2 ownerCaller 10
        { venue_id := "v1", appointment_date := some 5,
          duration_hours := 1, purpose := "match", notes := "" }
        "new").1 =
      (createAppointment [mkVenue "v1"] [] ownerCaller 10
        { venue_id := "v1", appointment_date := some 5,
          duration_hours := 1, purpose := "match", notes := "" }
        "new").1) :=
  C4_bad_date_rejected [mkVenue "v1"] [] ownerCaller 10
    { venue_id := "v1", appointment_date := some 5,
      duration_hours := 1, purpose := "match", notes := "" }
    "new" (mkVenue "v1") rfl rfl (Or.inr ⟨5, rfl, by decide⟩)

/-- Sweeping a record twice at the same instant equals sweeping it once. -/
theorem sweepOne_idem (now : Int) (a : Appointment) :
    sweepOne now (sweepOne now a) = sweepOne now a := by
  unfold sweepOne
  by_cases h : a.appointment_date < now ∧ isActive a.status = true
  · obtain ⟨hd, hs⟩ := h
    simp only [isActive, Bool.or_eq_true, decide_eq_true_eq] at hs
    simp [hd, hs, isActive]
  · simp [h]

/-- A record produced by a sweep never matches the sweep filter again. -/
theorem sweepOne_no_rematch (now : Int) (a : Appointment) :
    ((sweepOne now a).appointment_date < now &&
      isActive (sweepOne now a).status) = false := by
  unfold sweepOne
  by_cases h : a.appointment_date < now ∧ isActive a.status = true
  · obtain ⟨hd, hs⟩ := h
    simp only [isActive, Bool.or_eq_true, decide_eq_true_eq] at hs
    simp [hd, hs, isActive]
  · simp only [if_neg h]
    rw [not_and] at h
    by_cases hd : a.appointment_date < now
    · simp [hd, h hd]
    · simp [hd]

/-- C5: the completion sweeper is idempotent.  Any stored appointment that
is past due and active is set to `completed` with `updated_at` stamped by
one pass; an immediately repeated pass at the same instant rewrites nothing
(it equals the first pass's output and its `modifiedCount` is zero). -/
theorem C5_sweeper_idempotent (now : Int) (db : List Appointment)
    (a : Appointment) (ha : a ∈ db)
    (hd : a.appointment_date < now) (hs : isActive a.status = true) :
    sweepOne now a = { a with status := Status.completed, updated_at := now } ∧
    sweep now (sweep now db) = sweep now db ∧
    sweepModifiedCount now (sweep now db) = 0 := by
  refine ⟨by simp [sweepOne, hd, hs], ?_, ?_⟩
  · unfold sweep
    induction db with
    | nil => rfl
    | cons b t ih => simp [sweepOne_idem, ih]
  · unfold sweepModifiedCount sweep
    rw [List.length_eq_zero, List.filter_eq_nil_iff]
    intro x hx
    rw [List.mem_map] at hx
    obtain ⟨b, _, rfl⟩ := hx
    simp [sweepOne_no_rematch now b]

/-- Witness for C5 at concrete input: a past-due confirmed appointment is
completed by the first pass, and a second pass at the same instant changes
nothing. -/
theorem C5_witness :
    sweepOne 100 (mkAppt "a4" "v1" 50 1 Status.confirmed) =
      { mkAppt "a4" "v1" 50 1 Status.confirmed with
          status := Status.completed, updated_at := 100 } ∧
    sweep 100 (sweep 100 [mkAppt "a4" "v1" 50 1 Status.confirmed,
        mkAppt "a5" "v1" 200 1 Status.pending]) =
      sweep 100 [mkAppt "a4" "v1" 50 1 Status.confirmed,
        mkAppt "a5" "v1" 200 1 Status.pending] ∧
    sweepModifiedCount 100
      (sweep 100 [mkAppt "a4" "v1" 50 1 Status.confirmed,
        mkAppt "a5" "v1" 200 1 Status.pending]) = 0 :=
  C5_sweeper_idempotent 100
    [mkAppt "a4" "v1" 50 1 Status.confirmed,
     mkAppt "a5" "v1" 200 1 Status.pending]
    (mkAppt "a4" "v1" 50 1 Status.confirmed)
    (by simp) (by decide) (by decide)

/-- C6 counterexample: the sweep filter compares only the start timestamp
with `now`.  A confirmed appointment starting at 0 with a 2-hour window,
examined at `now = 1` (1 ms into the window, 7199999 ms before the window
ends), is nevertheless promoted to `completed` — contradicting the claim
that an appointment whose window has not fully elapsed is left unchanged. -/
theorem C6_counterexample :
    isActive (mkAppt "a6" "v1" 0 2 Status.confirmed).status = true ∧
    (mkAppt "a6" "v1" 0 2 Status.confirmed).appointment_date < 1 ∧
    (1 : Int) < (mkAppt "a6" "v1" 0 2 Status.confirmed).appointment_date +
      (mkAppt "a6" "v1" 0 2 Status.confirmed).duration_hours * 3600000 ∧
    sweepOne 1 (mkAppt "a6" "v1" 0 2 Status.confirmed) ≠
      mkAppt "a6" "v1" 0 2 Status.confirmed := by
  refine ⟨by decide, by decide, by decide, ?_⟩
  intro h
  have := congrArg Appointment.status h
  simp [sweepOne, mkAppt, isActive] at this

/-- C6 amended: the sweeper promotes an active appointment to `completed`
as soon as its start timestamp is strictly in the past, stamping
`updated_at`; the appointment's duration is never consulted, so the
promotion behaves identically for every duration value (in particular it
happens even while the window `[start, start + duration]` is still
running). -/
theorem C6_sweep_ignores_duration (now : Int) (a : Appointment)
    (hs : isActive a.status = true) (hd : a.appointment_date < now) :
    (sweepOne now a).status = Status.completed ∧
    (sweepOne now a).updated_at = now ∧
    (sweepOne now a).appointment_date = a.appointment_date ∧
    ∀ d : Int, sweepOne now { a with duration_hours := d } =
      { sweepOne now a with duration_hours := d } := by
  refine ⟨?_, ?_, ?_, ?_⟩ <;>
    simp [sweepOne, hd, hs]

/-- Witness for C6's amended theorem: the mid-window appointment of the
counterexample scenario is promoted, with the same outcome for every
duration. -/
theorem C6_witness :
    (sweepOne 1 (mkAppt "a7" "v1" 0 2 Status.confirmed)).status =
      Status.completed ∧
    (sweepOne 1 (mkAppt "a7" "v1" 0 2 Status.confirmed)).updated_at = 1 ∧
    (sweepOne 1 (mkAppt "a7" "v1" 0 2 Status.confirmed)).appointment_date =
      (mkAppt "a7" "v1" 0 2 Status.confirmed).appointment_date ∧
    ∀ d : Int,
      sweepOne 1 { mkAppt "a7" "v1" 0 2 Status.confirmed with
          duration_hours := d } =
        { sweepOne 1 (mkAppt "a7" "v1" 0 2 Status.confirmed) with
            duration_hours := d } :=
  C6_sweep_ignores_duration 1 (mkAppt "a7" "v1" 0 2 Status.confirmed)
    (by decide) (by decide)

/-- C7: a field-edit request from an authorized caller (owner or admin) on
a `completed` or `cancelled` appointment is rejected with the terminal-state
400 answer, and the collection is unchanged. -/
theorem C7_terminal_no_field_edit (db : List Appointment) (caller : Caller)
    (apptId : String) (req : UpdateRequest) (now : Int) (appt : Appointment)
    (h1 : findByCustomId db apptId = some appt)
    (h2 : appt.user_id = caller.id ∨ caller.role = Role.admin)
    (h3 : appt.status = Status.completed ∨ appt.status = Status.cancelled) :
    (updateAppointment db caller apptId req now).1 =
      UpdateResult.terminalLocked ∧
    (updateAppointment db caller apptId req now).2 = db := by
  have hng : ¬ (appt.user_id ≠ caller.id ∧ caller.role ≠ Role.admin) := by
    rcases h2 with h | h
    · exact fun hc => hc.1 h
    · exact fun hc => hc.2 h
  unfold updateAppointment
  rw [h1]
  rcases h3 with h | h <;> simp [hng, h]

/-- Witness for C7 at concrete input: the owner's attempt to edit the notes
of their cancelled appointment is rejected and the collection kept. -/
theorem C7_witness :
    (updateAppointment [mkAppt "a8" "v1" 900 1 Status.cancelled]
        ownerCaller "a8"
        { appointment_date := none, duration_hours := none,
          purpose := none, notes := some "late" } 50).1 =
      UpdateResult.terminalLocked ∧
    (updateAppointment [mkAppt "a8" "v1" 900 1 Status.cancelled]
        ownerCaller "a8"
        { appointment_date := none, duration_hours := none,
          purpose := none, notes := some "late" } 50).2 =
      [mkAppt "a8" "v1" 900 1 Status.cancelled] :=
  C7_terminal_no_field_edit [mkAppt "a8" "v1" 900 1 Status.cancelled]
    ownerCaller "a8"
    { appointment_date := none, duration_hours := none,
      purpose := none, notes := some "late" } 50
    (mkAppt "a8" "v1" 900 1 Status.cancelled) rfl (Or.inl rfl)
    (Or.inr rfl)

/-- C8: on a non-terminal appointment, a field update supplying a new start
date re-validates only the future constraint: a past-or-present date is
rejected with 400 and nothing changes, while a strictly future date makes
the update succeed with the new date stored — for every state of the
collection, so in particular when another active booking's window at the
same venue overlaps the new date; no conflict query is consulted. -/
theorem C8_reschedule_skips_conflict_check (db : List Appointment)
    (caller : Caller) (apptId : String) (req : UpdateRequest) (now : Int)
    (appt : Appointment) (newDate : Int)
    (h1 : findByCustomId db apptId = some appt)
    (h2 : appt.user_id = caller.id ∨ caller.role = Role.admin)
    (h3 : ¬ (appt.status = Status.completed ∨
             appt.status = Status.cancelled))
    (h4 : req.appointment_date = some newDate) :
    (newDate ≤ now →
      (updateAppointment db caller apptId req now).1 =
        UpdateResult.pastDate ∧
      (updateAppointment db caller apptId req now).2 = db) ∧
    (now < newDate →
      (updateAppointment db caller apptId req now).1 =
        UpdateResult.updateOk
          { applyFieldUpdates appt req with updated_at := now } ∧
      (applyFieldUpdates appt req).appointment_date = newDate) := by
  have hng : ¬ (appt.user_id ≠ caller.id ∧ caller.role ≠ Role.admin) := by
    rcases h2 with h | h
    · exact fun hc => hc.1 h
    · exact fun hc => hc.2 h
  constructor
  · intro hle
    unfold updateAppointment
    rw [h1]
    simp [hng, h3, h4, hle]
  · intro hgt
    have hnle : ¬ newDate ≤ now := not_le.mpr hgt
    constructor
    · unfold updateAppointment finishUpdate
      rw [h1]
      simp [hng, h3, h4, hnle]
    · unfold applyFieldUpdates
      rw [h4]
      repeat' split
      all_goals simp_all

/-- Witness for C8 at concrete input: rescheduling a pending booking at
venue `v1` to 7200000 succeeds although a confirmed booking at `v1` starts
at 7000000 — inside the 1-hour symmetric window `[3600000, 10800000]`
around the new date, as the conflict filter itself certifies. -/
theorem C8_witness :
    conflictFilter "v1" 7200000 3600000
      (mkAppt "other" "v1" 7000000 1 Status.confirmed) = true ∧
    (((7200000 : Int) ≤ 0 →
      (updateAppointment
          [mkAppt "a9" "v1" 500 1 Status.pending,
           mkAppt "other" "v1" 7000000 1 Status.confirmed]
          ownerCaller "a9"
          { appointment_date := some 7200000, duration_hours := none,
            purpose := none, notes := none } 0).1 =
        UpdateResult.pastDate ∧
      (updateAppointment
          [mkAppt "a9" "v1" 500 1 Status.pending,
           mkAppt "other" "v1" 7000000 1 Status.confirmed]
          ownerCaller "a9"
          { appointment_date := some 7200000, duration_hours := none,
            purpose := none, notes := none } 0).2 =
        [mkAppt "a9" "v1" 500 1 Status.pending,
         mkAppt "other" "v1" 7000000 1 Status.confirmed]) ∧
    ((0 : Int) < 7200000 →
      (updateAppointment
          [mkAppt "a9" "v1" 500 1 Status.pending,
           mkAppt "other" "v1" 7000000 1 Status.confirmed]
          ownerCaller "a9"
          { appointment_date := some 7200000, duration_hours := none,
            purpose := none, notes := none } 0).1 =
        UpdateResult.updateOk
          { applyFieldUpdates (mkAppt "a9" "v1" 500 1 Status.pending)
              { appointment_date := some 7200000, duration_hours := none,
                purpose := none, notes := none } with updated_at := 0 } ∧
      (applyFieldUpdates (mkAppt "a9" "v1" 500 1 Status.pending)
          { appointment_date := some 7200000, duration_hours := none,
            purpose := none, notes := none }).appointment_date =
        7200000)) :=
  ⟨by decide,
   C8_reschedule_skips_conflict_check
     [mkAppt "a9" "v1" 500 1 Status.pending,
      mkAppt "other" "v1" 7000000 1 Status.confirmed]
     ownerCaller "a9"
     { appointment_date := some 7200000, duration_hours := none,
       purpose := none, notes := none } 0
     (mkAppt "a9" "v1" 500 1 Status.pending) 7200000
     rfl (Or.inl rfl) (by decide) rfl⟩

/-- C9: the user serializer deletes the credential hash — for every user
record, no key of the serialized output is `password`. -/
theorem C9_no_password_in_serialization (u : User) :
    "password" ∉ (userToJSON u).map Prod.fst := by
  simp [userToJSON, userToObject]

/-- Normal form of the conditional field assignments: each field of the
result, written as one conditional expression. -/
theorem applyFieldUpdates_eq (appt : Appointment) (req : UpdateRequest) :
    applyFieldUpdates appt req = { appt with
      appointment_date := (match req.appointment_date with
        | some d => d
        | none => appt.appointment_date),
      duration_hours := (match req.duration_hours with
        | some d => if d ≠ 0 then d else appt.duration_hours
        | none => appt.duration_hours),
      purpose := (match req.purpose with
        | some p => if p ≠ "" then p else appt.purpose
        | none => appt.purpose),
      notes := (match req.notes with
        | some n => n
        | none => appt.notes) } := by
  unfold applyFieldUpdates
  rcases req with ⟨hdate, hdur, hpur, hnot⟩
  rcases hdate with _ | d <;> rcases hdur with _ | u <;>
    rcases hpur with _ | p <;> rcases hnot with _ | n <;>
    simp only [] <;> split_ifs <;> rfl

/-- C10: on a non-terminal appointment, with no date supplied, the update
succeeds and each field follows the handler's truthiness discipline:
`appointment_date` absent stays put; `duration_hours` absent or zero stays
put; `purpose` absent or empty stays put; `notes` is overwritten by any
present value (the empty string included) and kept when absent; all fields
not named in the request body are untouched. -/
theorem C10_field_update_semantics (db : List Appointment) (caller : Caller)
    (apptId : String) (req : UpdateRequest) (now : Int) (appt : Appointment)
    (h1 : findByCustomId db apptId = some appt)
    (h2 : appt.user_id = caller.id ∨ caller.role = Role.admin)
    (h3 : ¬ (appt.status = Status.completed ∨
             appt.status = Status.cancelled))
    (h4 : req.appointment_date = none) :
    (updateAppointment db caller apptId req now).1 =
      UpdateResult.updateOk
        { applyFieldUpdates appt req with updated_at := now } ∧
    (applyFieldUpdates appt req).appointment_date =
      appt.appointment_date ∧
    ((req.duration_hours = none ∨ req.duration_hours = some 0) →
      (applyFieldUpdates appt req).duration_hours = appt.duration_hours) ∧
    ((req.purpose = none ∨ req.purpose = some "") →
      (applyFieldUpdates appt req).purpose = appt.purpose) ∧
    (∀ n, req.notes = some n → (applyFieldUpdates appt req).notes = n) ∧
    (req.notes = none → (applyFieldUpdates appt req).notes = appt.notes) ∧
    (applyFieldUpdates appt req).id = appt.id ∧
    (applyFieldUpdates appt req).user_id = appt.user_id ∧
    (applyFieldUpdates appt req).user_name = appt.user_name ∧
    (applyFieldUpdates appt req).venue_id = appt.venue_id ∧
    (applyFieldUpdates appt req).venue_name = appt.venue_name ∧
    (applyFieldUpdates appt req).status = appt.status ∧
    (applyFieldUpdates appt req).created_at = appt.created_at := by
  have hng : ¬ (appt.user_id ≠ caller.id ∧ caller.role ≠ Role.admin) := by
    rcases h2 with h | h
    · exact fun hc => hc.1 h
    · exact fun hc => hc.2 h
  refine ⟨?_, ?_, ?_, ?_, ?_, ?_, ?_, ?_, ?_, ?_, ?_, ?_, ?_⟩
  · unfold updateAppointment finishUpdate
    rw [h1]
    simp [hng, h3, h4]
  · rw [applyFieldUpdates_eq]
    simp [h4]
  · intro hd
    rw [applyFieldUpdates_eq]
    rcases hd with h | h <;> simp [h]
  · intro hp
    rw [applyFieldUpdates_eq]
    rcases hp with h | h <;> simp [h]
  · intro n hn
    rw [applyFieldUpdates_eq]
    simp [hn]
  · intro hn
    rw [applyFieldUpdates_eq]
    simp [hn]
  all_goals rw [applyFieldUpdates_eq]

/-- Witness for C10 at concrete input: a request carrying
`duration_hours = 0`, `purpose = ""` and `notes = ""` succeeds, keeps the
stored duration and purpose, blanks the notes, and touches nothing else. -/
theorem C10_witness :
    ((updateAppointment
        [{ mkAppt "b1" "v1" 5000 2 Status.pending with notes := "keep" }]
        ownerCaller "b1"
        { appointment_date := none, duration_hours := some 0,
          purpose := some "", notes := some "" } 9).1 =
      UpdateResult.updateOk
        { applyFieldUpdates
            { mkAppt "b1" "v1" 5000 2 Status.pending with notes := "keep" }
            { appointment_date := none, duration_hours := some 0,
              purpose := some "", notes := some "" } with updated_at := 9 } ∧
    (applyFieldUpdates
        { mkAppt "b1" "v1" 5000 2 Status.pending with notes := "keep" }
        { appointment_date := none, duration_hours := some 0,
          purpose := some "", notes := some "" }).appointment_date =
      ({ mkAppt "b1" "v1" 5000 2 Status.pending with
          notes := "keep" }).appointment_date ∧
    (((Option.some (0 : Int) = none ∨ some (0 : Int) = some 0) →
      (applyFieldUpdates
          { mkAppt "b1" "v1" 5000 2 Status.pending with notes := "keep" }
          { appointment_date := none, duration_hours := some 0,
            purpose := some "", notes := some "" }).duration_hours =
        ({ mkAppt "b1" "v1" 5000 2 Status.pending with
            notes := "keep" }).duration_hours)) ∧
    (((Option.some "" = none ∨ some "" = some "") →
      (applyFieldUpdates
          { mkAppt "b1" "v1" 5000 2 Status.pending with notes := "keep" }
          { appointment_date := none, duration_hours := some 0,
            purpose := some "", notes := some "" }).purpose =
        ({ mkAppt "b1" "v1" 5000 2 Status.pending with
            notes := "keep" }).purpose)) ∧
    (∀ n, Option.some "" = some n →
      (applyFieldUpdates
          { mkAppt "b1" "v1" 5000 2 Status.pending with notes := "keep" }
          { appointment_date := none, duration_hours := some 0,
            purpose := some "", notes := some "" }).notes = n) ∧
    ((Option.some "" = (none : Option String)) →
      (applyFieldUpdates
          { mkAppt "b1" "v1" 5000 2 Status.pending with notes := "keep" }
          { appointment_date := none, duration_hours := some 0,
            purpose := some "", notes := some "" }).notes =
        ({ mkAppt "b1" "v1" 5000 2 Status.pending with
            notes := "keep" }).notes) ∧
    (applyFieldUpdates
        { mkAppt "b1" "v1" 5000 2 Status.pending with notes := "keep" }
        { appointment_date := none, duration_hours := some 0,
          purpose := some "", notes := some "" }).id =
      ({ mkAppt "b1" "v1" 5000 2 Status.pending with notes := "keep" }).id ∧
    (applyFieldUpdates
        { mkAppt "b1" "v1" 5000 2 Status.pending with notes := "keep" }
        { appointment_date := none, duration_hours := some 0,
          purpose := some "", notes := some "" }).user_id =
      ({ mkAppt "b1" "v1" 5000 2 Status.pending with
          notes := "keep" }).user_id ∧
    (applyFieldUpdates
        { mkAppt "b1" "v1" 5000 2 Status.pending with notes := "keep" }
        { appointment_date := none, duration_hours := some 0,
          purpose := some "", notes := some "" }).user_name =
      ({ mkAppt "b1" "v1" 5000 2 Status.pending with
          notes := "keep" }).user_name ∧
    (applyFieldUpdates
        { mkAppt "b1" "v1" 5000 2 Status.pending with notes := "keep" }
        { appointment_date := none, duration_hours := some 0,
          purpose := some "", notes := some "" }).venue_id =
      ({ mkAppt "b1" "v1" 5000 2 Status.pending with
          notes := "keep" }).venue_id ∧
    (applyFieldUpdates
        { mkAppt "b1" "v1" 5000 2 Status.pending with notes := "keep" }
        { appointment_date := none, duration_hours := some 0,
          purpose := some "", notes := some "" }).venue_name =
      ({ mkAppt "b1" "v1" 5000 2 Status.pending with
          notes := "keep" }).venue_name ∧
    (applyFieldUpdates
        { mkAppt "b1" "v1" 5000 2 Status.pending with notes := "keep" }
        { appointment_date := none, duration_hours := some 0,
          purpose := some "", notes := some "" }).status =
      ({ mkAppt "b1" "v1" 5000 2 Status.pending with
          notes := "keep" }).status ∧
    (applyFieldUpdates
        { mkAppt "b1" "v1" 5000 2 Status.pending with notes := "keep" }
        { appointment_date := none, duration_hours := some 0,
          purpose := some "", notes := some "" }).created_at =
      ({ mkAppt "b1" "v1" 5000 2 Status.pending with
          notes := "keep" }).created_at) :=
  C10_field_update_semantics
    [{ mkAppt "b1" "v1" 5000 2 Status.pending with notes := "keep" }]
    ownerCaller "b1"
    { appointment_date := none, duration_hours := some 0,
      purpose := some "", notes := some "" } 9
    { mkAppt "b1" "v1" 5000 2 Status.pending with notes := "keep" }
    rfl (Or.inl rfl) (by decide) rfl

end GencFit
